import Mathlib

/-!
Shallow embedding of `src/app.py` (Streamlit mental-health chatbot).

The Firestore document store is modelled as a function from user ids to
optional documents; a document carries its optional `conversation` field
plus the remaining fields (`other`) so that merge semantics is observable.
The `prompts.json` static resource is modelled as an optional JSON object
(an association list of string fields); the generation function receives
the resource content current at each call, reflecting that the file is
opened inside the function body on every call.  Network calls are split
into request construction (what the code builds and would send) and a
vendor oracle mapping a request to the returned text.
-/

namespace MHChatbot

/-- A chat message dictionary `{"role": ..., "content": ...}`. -/
structure Message where
  role : String
  content : String
deriving DecidableEq, Repr

/-- A Firestore document: the optional `conversation` field and all other
top-level fields of the record (kept abstract as string key/value pairs). -/
structure Doc where
  conversation : Option (List Message)
  other : List (String × String)
deriving DecidableEq, Repr

/-- The `conversations` collection: one optional document per user id. -/
abbrev Store := String → Option Doc

/-- `get_conversation(user_id)` (src/app.py lines 29-35): read the document,
return its `conversation` field with default `[]`, or `[]` when the document
does not exist.  The function performs only a read (`doc_ref.get()`), so the
resulting store is the input store. -/
def get_conversation (db : Store) (user_id : String) : List Message × Store :=
  let doc := db user_id
  let conversation : List Message :=
    match doc with
    | some d => d.conversation.getD []
    | none => []
  (conversation, db)

/-- `doc_ref.set({"conversation": conversation}, merge=True)`: merge write of
the `conversation` field into the existing document (other fields kept), or
creation of a fresh document when none exists. -/
def setMergeConversation (old : Option Doc) (conv : List Message) : Doc :=
  match old with
  | some d => { d with conversation := some conv }
  | none => { conversation := some conv, other := [] }

/-- `update_conversation_messages(user_id, new_messages)` (src/app.py lines
37-46): re-read the current conversation (default `[]`), extend it with
`new_messages`, and merge-write the result back. -/
def update_conversation_messages (db : Store) (user_id : String)
    (new_messages : List Message) : Store :=
  let doc := db user_id
  let conversation : List Message :=
    match doc with
    | some d => d.conversation.getD []
    | none => []
  let conversation := conversation ++ new_messages
  fun uid =>
    if uid = user_id then some (setMergeConversation (db uid) conversation)
    else db uid

/-- The `prompts.json` resource: `none` when the file is missing or
unreadable, otherwise the parsed JSON object as string fields. -/
abbrev PromptsFile := Option (List (String × String))

/-- Errors `get_llm_response` can raise before any network call:
`fileNotFound` for a missing `prompts.json`, `keyError` for a missing
required field, `valueError` for an unsupported provider. -/
inductive LLMError where
  | fileNotFound
  | keyError (key : String)
  | valueError (msg : String)
deriving DecidableEq, Repr

/-- `json.load(f)` followed by `prompts["system_prompt"]` (src/app.py lines
54-56): fails when the resource is missing or the field is absent. -/
def loadSystemPrompt (file : PromptsFile) : Except LLMError String :=
  match file with
  | none => Except.error LLMError.fileNotFound
  | some fields =>
    match fields.lookup "system_prompt" with
    | none => Except.error (LLMError.keyError "system_prompt")
    | some s => Except.ok s

/-- The outgoing vendor request built by `get_llm_response`: either an
OpenAI chat-completion call (model, message array, temperature) or an
Anthropic messages call (model, max_tokens, message array, separate
top-level system field). -/
inductive LLMRequest where
  | openaiReq (model : String) (messages : List Message) (temperature : Nat)
  | anthropicReq (model : String) (maxTokens : Nat) (messages : List Message)
      (system : String)
deriving DecidableEq, Repr

/-- The message array of a request. -/
def LLMRequest.messages : LLMRequest → List Message
  | LLMRequest.openaiReq _ ms _ => ms
  | LLMRequest.anthropicReq _ _ ms _ => ms

/-- The separate top-level system field of a request (`none` for the
OpenAI-style request, which has no such field). -/
def LLMRequest.systemField : LLMRequest → Option String
  | LLMRequest.openaiReq _ _ _ => none
  | LLMRequest.anthropicReq _ _ _ s => some s

/-- Whether the request takes the Anthropic-style shape. -/
def LLMRequest.isAnthropic : LLMRequest → Bool
  | LLMRequest.openaiReq _ _ _ => false
  | LLMRequest.anthropicReq _ _ _ _ => true

/-- The `for msg in conversation_history` loop of the Anthropic branch
(src/app.py lines 72-78): rebuild each `user`/`assistant` message, drop
every other role. -/
def anthropicMessages : List Message → List Message
  | [] => []
  | m :: rest =>
    if m.role = "user" then
      { role := "user", content := m.content } :: anthropicMessages rest
    else if m.role = "assistant" then
      { role := "assistant", content := m.content } :: anthropicMessages rest
    else anthropicMessages rest

/-- `get_llm_response(conversation_history, incoming_msg, provider)`
(src/app.py lines 49-91) up to the network boundary: loads the system
prompt from the resource, then builds the vendor request for the chosen
provider, or raises `ValueError` for any other provider. -/
def get_llm_response (file : PromptsFile) (conversation_history : List Message)
    (incoming_msg : String) (provider : String := "anthropic") :
    Except LLMError LLMRequest := do
  let system_prompt ← loadSystemPrompt file
  if provider = "openai" then
    let messages := [{ role := "system", content := system_prompt }]
    let messages := messages ++ conversation_history
    let messages := messages ++ [{ role := "user", content := incoming_msg }]
    return LLMRequest.openaiReq "gpt-4o" messages 1
  else if provider = "anthropic" then
    let messages := anthropicMessages conversation_history
    let messages := messages ++ [{ role := "user", content := incoming_msg }]
    return LLMRequest.anthropicReq "claude-3-5-sonnet-20241022" 1000 messages
      system_prompt
  else
    Except.error (LLMError.valueError ("Unsupported provider: " ++ provider))

/-- The vendor: maps a request to the text the code extracts from the
response (`choices[0].message.content.strip()` resp.
`content[0].text.strip()`). -/
abbrev Oracle := LLMRequest → String

/-- In-session state: the user identifier and the displayed conversation
(`st.session_state`). -/
structure SessionState where
  user_id : String
  conversation : List Message
deriving DecidableEq, Repr

/-- The awaiting-response block of `main` (src/app.py lines 159-173): when
the conversation is non-empty and its last message has role `user`, call
`get_llm_response` (provider argument omitted, so the default applies) with
all-but-last as history and the last message's content as the new text,
then append the assistant message to the session conversation and to the
store.  Returns `none` when the guard is not taken, `some (Except.error e)`
when generation raises, and otherwise the request made together with the
new session state and store. -/
def respond_step (file : PromptsFile) (oracle : Oracle) (st : SessionState)
    (db : Store) : Option (Except LLMError (LLMRequest × SessionState × Store)) :=
  match st.conversation.getLast? with
  | none => none
  | some last =>
    if last.role = "user" then
      match get_llm_response file st.conversation.dropLast last.content with
      | Except.error e => some (Except.error e)
      | Except.ok req =>
        let response_text := oracle req
        let assistant_message : Message :=
          { role := "assistant", content := response_text }
        some (Except.ok (req,
          { st with conversation := st.conversation ++ [assistant_message] },
          update_conversation_messages db st.user_id [assistant_message]))
    else none

/-- Bind on a successful `Except` computation applies the continuation. -/
theorem except_ok_bind {α β : Type} (a : α) (f : α → Except LLMError β) :
    (Except.ok a >>= f) = f a := rfl

/-- Bind on a failed `Except` computation propagates the error. -/
theorem except_error_bind {α β : Type} (e : LLMError)
    (f : α → Except LLMError β) :
    ((Except.error e : Except LLMError α) >>= f) = Except.error e := rfl

/-- When loading the system prompt fails, `get_llm_response` fails with that
error, whatever the provider. -/
theorem get_llm_response_load_error (file : PromptsFile)
    (hist : List Message) (msg provider : String) (e : LLMError)
    (hs : loadSystemPrompt file = Except.error e) :
    get_llm_response file hist msg provider = Except.error e := by
  simp [get_llm_response, hs, except_error_bind]

/-- The Anthropic-branch loop keeps exactly the `user`/`assistant` messages
of the history, in order. -/
theorem anthropicMessages_eq_filter (l : List Message) :
    anthropicMessages l
      = l.filter (fun m => m.role == "user" || m.role == "assistant") := by
  induction l with
  | nil => rfl
  | cons m rest ih =>
    cases m with
    | mk role content =>
      by_cases hu : role = "user"
      · subst hu
        simp [anthropicMessages, List.filter, ih]
      · by_cases ha : role = "assistant"
        · subst ha
          simp [anthropicMessages, List.filter, ih]
        · have hb : (role == "user" || role == "assistant") = false := by
            simp [hu, ha]
          simp [anthropicMessages, List.filter, hu, ha, hb, ih]

/-- C1: for the Anthropic-style provider, `get_llm_response` sends exactly
the `user`/`assistant` messages of the history, in order, with the new user
message appended last; the system prompt travels in the separate top-level
`system` field and no message in the array carries any other role. -/
theorem anthropic_request_spec (file : PromptsFile) (hist : List Message)
    (msg s : String) (h : loadSystemPrompt file = Except.ok s) :
    get_llm_response file hist msg "anthropic"
      = Except.ok (LLMRequest.anthropicReq "claude-3-5-sonnet-20241022" 1000
          (hist.filter (fun m => m.role == "user" || m.role == "assistant")
            ++ [{ role := "user", content := msg }]) s)
    ∧ ∀ m ∈ hist.filter (fun m => m.role == "user" || m.role == "assistant")
          ++ [({ role := "user", content := msg } : Message)],
        m.role = "user" ∨ m.role = "assistant" := by
  constructor
  · simp [get_llm_response, h, anthropicMessages_eq_filter]
  · intro m hm
    rcases List.mem_append.mp hm with hmem | hmem
    · rcases List.mem_filter.mp hmem with ⟨_, hp⟩
      rcases Bool.or_eq_true _ _ |>.mp hp with h1 | h1
      · exact Or.inl (by simpa using h1)
      · exact Or.inr (by simpa using h1)
    · simp at hmem
      subst hmem
      exact Or.inl rfl

/-- Witness for C1 at the spec's example: history
`[{user,hi},{assistant,hello},{system,ignored}]`, new text `how are you`. -/
theorem anthropic_request_spec_witness :
    get_llm_response (some [("system_prompt", "SP")])
        [⟨"user", "hi"⟩, ⟨"assistant", "hello"⟩, ⟨"system", "ignored"⟩]
        "how are you" "anthropic"
      = Except.ok (LLMRequest.anthropicReq "claude-3-5-sonnet-20241022" 1000
          [⟨"user", "hi"⟩, ⟨"assistant", "hello"⟩, ⟨"user", "how are you"⟩]
          "SP") := by
  have h := anthropic_request_spec (some [("system_prompt", "SP")])
      [⟨"user", "hi"⟩, ⟨"assistant", "hello"⟩, ⟨"system", "ignored"⟩]
      "how are you" "SP" rfl
  simpa using h.1

/-- C2: for the OpenAI-style provider, the outgoing message array is one
leading system message holding the loaded prompt, then the history
unchanged and unfiltered, then the new user message; model `gpt-4o`,
temperature 1. -/
theorem openai_request_spec (file : PromptsFile) (hist : List Message)
    (msg s : String) (h : loadSystemPrompt file = Except.ok s) :
    get_llm_response file hist msg "openai"
      = Except.ok (LLMRequest.openaiReq "gpt-4o"
          ({ role := "system", content := s } :: (hist
            ++ [{ role := "user", content := msg }])) 1) := by
  simp [get_llm_response, h]

/-- Witness for C2. -/
theorem openai_request_spec_witness :
    get_llm_response (some [("system_prompt", "SP")])
        [⟨"user", "hi"⟩, ⟨"system", "kept"⟩] "yo" "openai"
      = Except.ok (LLMRequest.openaiReq "gpt-4o"
          [⟨"system", "SP"⟩, ⟨"user", "hi"⟩, ⟨"system", "kept"⟩, ⟨"user", "yo"⟩]
          1) := by
  have h := openai_request_spec (some [("system_prompt", "SP")])
      [⟨"user", "hi"⟩, ⟨"system", "kept"⟩] "yo" "SP" rfl
  simpa using h

/-- C3: reading a missing record yields the empty conversation and leaves
the store exactly as it was; reads never write, for any store and id, so
repeated reads cannot create a record. -/
theorem get_missing_record_empty (db : Store) (uid : String)
    (h : db uid = none) :
    get_conversation db uid = ([], db)
    ∧ ∀ (db2 : Store) (u : String), (get_conversation db2 u).2 = db2 := by
  constructor
  · simp [get_conversation, h]
  · intro db2 u
    rfl

/-- Witness for C3: empty store, id `sam`. -/
theorem get_missing_record_empty_witness :
    get_conversation (fun _ => none) "sam" = ([], fun _ => none)
    ∧ ∀ (db2 : Store) (u : String), (get_conversation db2 u).2 = db2 :=
  get_missing_record_empty (fun _ => none) "sam" rfl

/-- C4: appending then reading returns the previous conversation extended by
the appended batch; on a fresh id the read returns exactly the batch; two
successive single-message appends `[a]` then `[b]` leave the stored
conversation equal to the old one followed by `[a, b]`. -/
theorem append_get_round_trip (db : Store) (uid : String) (ms : List Message)
    (a b : Message) :
    (get_conversation (update_conversation_messages db uid ms) uid).1
        = (get_conversation db uid).1 ++ ms
    ∧ (db uid = none →
        (get_conversation (update_conversation_messages db uid ms) uid).1 = ms)
    ∧ (get_conversation
          (update_conversation_messages
            (update_conversation_messages db uid [a]) uid [b]) uid).1
        = (get_conversation db uid).1 ++ [a, b] := by
  have hstep : ∀ (db0 : Store) (ns : List Message),
      (get_conversation (update_conversation_messages db0 uid ns) uid).1
        = (get_conversation db0 uid).1 ++ ns := by
    intro db0 ns
    cases hdoc : db0 uid with
    | none =>
      simp [get_conversation, update_conversation_messages,
        setMergeConversation, hdoc]
    | some d =>
      simp [get_conversation, update_conversation_messages,
        setMergeConversation, hdoc]
  refine ⟨hstep db ms, ?_, ?_⟩
  · intro h
    rw [hstep db ms]
    simp [get_conversation, h]
  · rw [hstep _ [b], hstep db [a], List.append_assoc]
    rfl

/-- Witness for C4: fresh store, id `sam`. -/
theorem append_get_round_trip_witness :
    (get_conversation
        (update_conversation_messages (fun _ => none) "sam"
          [⟨"user", "hi"⟩]) "sam").1
      = (get_conversation (fun _ => none) "sam").1 ++ [⟨"user", "hi"⟩]
    ∧ ((fun _ => none : Store) "sam" = none →
        (get_conversation
          (update_conversation_messages (fun _ => none) "sam"
            [⟨"user", "hi"⟩]) "sam").1 = [⟨"user", "hi"⟩])
    ∧ (get_conversation
          (update_conversation_messages
            (update_conversation_messages (fun _ => none) "sam"
              [⟨"user", "a"⟩]) "sam" [⟨"assistant", "b"⟩]) "sam").1
        = (get_conversation (fun _ => none) "sam").1
            ++ [⟨"user", "a"⟩, ⟨"assistant", "b"⟩] :=
  append_get_round_trip (fun _ => none) "sam" [⟨"user", "hi"⟩]
    ⟨"user", "a"⟩ ⟨"assistant", "b"⟩

/-- C6: `update_conversation_messages` merges into the stored record: the
updated document keeps every field other than `conversation`, and every
other user's record is untouched. -/
theorem update_merge_frame (db : Store) (uid : String) (ms : List Message)
    (d : Doc) (h : db uid = some d) :
    (∃ d', update_conversation_messages db uid ms uid = some d'
        ∧ d'.other = d.other)
    ∧ ∀ u, u ≠ uid → update_conversation_messages db uid ms u = db u := by
  constructor
  · refine ⟨setMergeConversation (db uid)
      ((match db uid with
        | some d0 => d0.conversation.getD []
        | none => []) ++ ms), ?_, ?_⟩
    · simp [update_conversation_messages]
    · simp [setMergeConversation, h]
  · intro u hu
    simp [update_conversation_messages, hu]

/-- Witness for C6: a record holding an extra field `mood`. -/
theorem update_merge_frame_witness :
    (∃ d', update_conversation_messages
        (fun u => if u = "sam" then
          some ⟨some [⟨"user", "hi"⟩], [("mood", "ok")]⟩ else none)
        "sam" [⟨"assistant", "hello"⟩] "sam" = some d'
      ∧ d'.other = (⟨some [⟨"user", "hi"⟩], [("mood", "ok")]⟩ : Doc).other)
    ∧ ∀ u, u ≠ "sam" →
        update_conversation_messages
          (fun u => if u = "sam" then
            some ⟨some [⟨"user", "hi"⟩], [("mood", "ok")]⟩ else none)
          "sam" [⟨"assistant", "hello"⟩] u
        = (fun u => if u = "sam" then
            some ⟨some [⟨"user", "hi"⟩], [("mood", "ok")]⟩ else none) u :=
  update_merge_frame
    (fun u => if u = "sam" then
      some ⟨some [⟨"user", "hi"⟩], [("mood", "ok")]⟩ else none)
    "sam" [⟨"assistant", "hello"⟩]
    ⟨some [⟨"user", "hi"⟩], [("mood", "ok")]⟩ (by simp)

/-- C10: the read also yields the empty conversation when the record exists
but lacks a `conversation` field, just as when the record is absent; neither
case is an error. -/
theorem get_conversation_field_missing (db : Store) (uid : String) (d : Doc)
    (hd : db uid = some d) (hc : d.conversation = none) :
    (get_conversation db uid).1 = []
    ∧ ∀ (db2 : Store) (u : String), db2 u = none →
        (get_conversation db2 u).1 = [] := by
  constructor
  · simp [get_conversation, hd, hc]
  · intro db2 u h
    simp [get_conversation, h]

/-- Witness for C10: a record with no `conversation` field and an empty
store. -/
theorem get_conversation_field_missing_witness :
    (get_conversation
        (fun u => if u = "sam" then some ⟨none, [("mood", "ok")]⟩ else none)
        "sam").1 = []
    ∧ ∀ (db2 : Store) (u : String), db2 u = none →
        (get_conversation db2 u).1 = [] :=
  get_conversation_field_missing
    (fun u => if u = "sam" then some ⟨none, [("mood", "ok")]⟩ else none)
    "sam" ⟨none, [("mood", "ok")]⟩ (by simp) rfl

/-- C5: for any provider other than `openai` and `anthropic` no request is
ever produced (so no network call can be made), and when the prompt
resource loads, the result is exactly the `ValueError` configuration
error. -/
theorem unsupported_provider_spec (file : PromptsFile) (hist : List Message)
    (msg provider : String) (h1 : provider ≠ "openai")
    (h2 : provider ≠ "anthropic") :
    (∀ req, get_llm_response file hist msg provider ≠ Except.ok req)
    ∧ ∀ s, loadSystemPrompt file = Except.ok s →
        get_llm_response file hist msg provider
          = Except.error
              (LLMError.valueError ("Unsupported provider: " ++ provider)) := by
  have hbranch : ∀ s, loadSystemPrompt file = Except.ok s →
      get_llm_response file hist msg provider
        = Except.error
            (LLMError.valueError ("Unsupported provider: " ++ provider)) := by
    intro s hs
    simp [get_llm_response, hs, except_ok_bind, h1, h2]
  refine ⟨?_, hbranch⟩
  intro req hok
  cases hs : loadSystemPrompt file with
  | error e =>
    rw [get_llm_response_load_error file hist msg provider e hs] at hok
    exact Except.noConfusion hok
  | ok s =>
    rw [hbranch s hs] at hok
    exact Except.noConfusion hok

/-- Witness for C5 at provider `gemini`. -/
theorem unsupported_provider_spec_witness :
    (∀ req, get_llm_response (some [("system_prompt", "SP")]) [] "hi" "gemini"
        ≠ Except.ok req)
    ∧ ∀ s, loadSystemPrompt (some [("system_prompt", "SP")]) = Except.ok s →
        get_llm_response (some [("system_prompt", "SP")]) [] "hi" "gemini"
          = Except.error
              (LLMError.valueError ("Unsupported provider: " ++ "gemini")) :=
  unsupported_provider_spec (some [("system_prompt", "SP")]) [] "hi" "gemini"
    (by decide) (by decide)

/-- C7: the system prompt is loaded from the resource state current at each
call: a missing resource fails the call with a file error for every
provider, a present resource without the `system_prompt` field fails with a
key error, no fallback text exists, and a successful Anthropic-style call
carries exactly the prompt loaded from the resource passed to that call. -/
theorem system_prompt_fresh_and_required (hist : List Message)
    (msg provider : String) :
    get_llm_response none hist msg provider
        = Except.error LLMError.fileNotFound
    ∧ (∀ fields : List (String × String),
        fields.lookup "system_prompt" = none →
        get_llm_response (some fields) hist msg provider
          = Except.error (LLMError.keyError "system_prompt"))
    ∧ ∀ (file : PromptsFile) (s : String) (req : LLMRequest),
        loadSystemPrompt file = Except.ok s →
        get_llm_response file hist msg "anthropic" = Except.ok req →
        req.systemField = some s := by
  refine ⟨?_, ?_, ?_⟩
  · exact get_llm_response_load_error none hist msg provider
      LLMError.fileNotFound rfl
  · intro fields hf
    exact get_llm_response_load_error (some fields) hist msg provider
      (LLMError.keyError "system_prompt")
      (by simp [loadSystemPrompt, hf])
  · intro file s req hs hok
    rw [(anthropic_request_spec file hist msg s hs).1] at hok
    cases hok
    rfl

/-- Witness for C7: the three behaviours at concrete resources. -/
theorem system_prompt_fresh_and_required_witness :
    get_llm_response none [] "hi" "anthropic"
        = Except.error LLMError.fileNotFound
    ∧ get_llm_response (some [("greeting", "yo")]) [] "hi" "anthropic"
        = Except.error (LLMError.keyError "system_prompt")
    ∧ ∃ req, get_llm_response (some [("system_prompt", "SP")]) [] "hi"
          "anthropic" = Except.ok req ∧ req.systemField = some "SP" := by
  have h := system_prompt_fresh_and_required [] "hi" "anthropic"
  exact ⟨h.1, h.2.1 [("greeting", "yo")] rfl,
    LLMRequest.anthropicReq "claude-3-5-sonnet-20241022" 1000
      [⟨"user", "hi"⟩] "SP", rfl,
    h.2.2 (some [("system_prompt", "SP")]) "SP" _ rfl rfl⟩

/-- C8: when the session conversation ends in a `user` message and
generation succeeds, the loop calls generation with all-but-last as history
and the last content as the new text, and appends exactly one assistant
message with the returned text to the session conversation and to the
store, so the conversation ends `[user, assistant]`. -/
theorem session_loop_awaiting_response (file : PromptsFile) (oracle : Oracle)
    (st : SessionState) (db : Store) (h0 : List Message) (t : String)
    (req : LLMRequest)
    (hconv : st.conversation = h0 ++ [{ role := "user", content := t }])
    (hreq : get_llm_response file h0 t = Except.ok req) :
    respond_step file oracle st db
      = some (Except.ok (req,
          { st with conversation := st.conversation
              ++ [{ role := "assistant", content := oracle req }] },
          update_conversation_messages db st.user_id
            [{ role := "assistant", content := oracle req }]))
    ∧ st.conversation ++ [({ role := "assistant", content := oracle req } : Message)]
        = h0 ++ [{ role := "user", content := t },
            { role := "assistant", content := oracle req }] := by
  constructor
  · simp [respond_step, hconv, hreq]
  · rw [hconv, List.append_assoc]
    rfl

/-- Witness for C8: the spec's scenario, user `Sam` sending the first
message with empty history. -/
theorem session_loop_awaiting_response_witness :
    respond_step (some [("system_prompt", "SP")]) (fun _ => "resp")
        ⟨"Sam", [⟨"user", "I feel stuck"⟩]⟩ (fun _ => none)
      = some (Except.ok
          (LLMRequest.anthropicReq "claude-3-5-sonnet-20241022" 1000
            [⟨"user", "I feel stuck"⟩] "SP",
          ⟨"Sam", [⟨"user", "I feel stuck"⟩] ++ [⟨"assistant",
            (fun _ => "resp" : Oracle)
              (LLMRequest.anthropicReq "claude-3-5-sonnet-20241022" 1000
                [⟨"user", "I feel stuck"⟩] "SP")⟩]⟩,
          update_conversation_messages (fun _ => none) "Sam"
            [⟨"assistant",
              (fun _ => "resp" : Oracle)
                (LLMRequest.anthropicReq "claude-3-5-sonnet-20241022" 1000
                  [⟨"user", "I feel stuck"⟩] "SP")⟩]))
    ∧ [(⟨"user", "I feel stuck"⟩ : Message)] ++ [(⟨"assistant",
          (fun _ => "resp" : Oracle)
            (LLMRequest.anthropicReq "claude-3-5-sonnet-20241022" 1000
              [⟨"user", "I feel stuck"⟩] "SP")⟩ : Message)]
        = [] ++ [⟨"user", "I feel stuck"⟩, ⟨"assistant",
            (fun _ => "resp" : Oracle)
              (LLMRequest.anthropicReq "claude-3-5-sonnet-20241022" 1000
                [⟨"user", "I feel stuck"⟩] "SP")⟩] :=
  session_loop_awaiting_response (some [("system_prompt", "SP")])
    (fun _ => "resp") ⟨"Sam", [⟨"user", "I feel stuck"⟩]⟩ (fun _ => none)
    [] "I feel stuck" _ rfl rfl

/-- Every successful call of `get_llm_response` with the default provider
value builds an Anthropic-style request. -/
theorem default_provider_request_isAnthropic (file : PromptsFile)
    (hist : List Message) (msg : String) (req : LLMRequest)
    (hok : get_llm_response file hist msg = Except.ok req) :
    req.isAnthropic = true := by
  cases hs : loadSystemPrompt file with
  | error e =>
    rw [get_llm_response_load_error file hist msg "anthropic" e hs] at hok
    exact Except.noConfusion hok
  | ok s =>
    rw [(anthropic_request_spec file hist msg s hs).1] at hok
    cases hok
    rfl

/-- C9: the generation function's provider parameter defaults to the
Anthropic-style value, the session loop omits the provider argument, and
every request the session loop can ever issue is Anthropic-style: the
OpenAI-style path is unreachable from the loop. -/
theorem session_loop_anthropic_only (file : PromptsFile) (oracle : Oracle)
    (st : SessionState) (db : Store) :
    (∀ (hist : List Message) (msg : String),
        get_llm_response file hist msg
          = get_llm_response file hist msg "anthropic")
    ∧ ∀ (req : LLMRequest) (st' : SessionState) (db' : Store),
        respond_step file oracle st db = some (Except.ok (req, st', db')) →
        req.isAnthropic = true := by
  refine ⟨fun _ _ => rfl, ?_⟩
  intro req st' db' hstep
  cases hlast : st.conversation.getLast? with
  | none => simp [respond_step, hlast] at hstep
  | some last =>
    by_cases hrole : last.role = "user"
    · cases hok : get_llm_response file st.conversation.dropLast
          last.content with
      | error e =>
        simp [respond_step, hlast, hrole, hok] at hstep
      | ok r =>
        simp [respond_step, hlast, hrole, hok] at hstep
        obtain ⟨hr, -⟩ := hstep
        subst hr
        exact default_provider_request_isAnthropic file
          st.conversation.dropLast last.content _ hok
    · simp [respond_step, hlast, hrole] at hstep

/-- Witness for C9: a concrete session step yields an Anthropic-style
request. -/
theorem session_loop_anthropic_only_witness :
    get_llm_response (some [("system_prompt", "SP")]) [] "hi"
        = get_llm_response (some [("system_prompt", "SP")]) [] "hi" "anthropic"
    ∧ ∃ (req : LLMRequest) (st' : SessionState) (db' : Store),
        respond_step (some [("system_prompt", "SP")]) (fun _ => "resp")
            ⟨"Sam", [⟨"user", "hi"⟩]⟩ (fun _ => none)
          = some (Except.ok (req, st', db'))
        ∧ req.isAnthropic = true := by
  have h := session_loop_anthropic_only (some [("system_prompt", "SP")])
    (fun _ => "resp") ⟨"Sam", [⟨"user", "hi"⟩]⟩ (fun _ => none)
  exact ⟨h.1 [] "hi", _, _, _, rfl, h.2 _ _ _ rfl⟩

end MHChatbot
